import Mathlib

/-!
Verification of the motion analysis engine of stepflow-ai.

This file shallowly embeds the engine of `src/analyzer.py` together with the
data model of `src/models.py`.  Python floats are modelled by exact real
numbers; numpy reductions (`mean`, `var`, `std`, `percentile`, `clip`,
`diff`) are embedded as the corresponding list operations over `ℝ`.  The
rank arithmetic of `np.percentile` is carried out in `ℚ`, exactly as numpy
computes it from the integer length and the rational percentile argument.
Feedback message strings are embedded verbatim except that the one
interpolated value (`on_beat_percentage` inside the timing warning) is
elided, since no property depends on message text.
-/

noncomputable section

namespace StepFlow

/-- KeyPoint of `src/models.py`: a 2D-or-3D point with optional depth and
optional detection confidence. -/
structure KeyPoint where
  x : ℝ
  y : ℝ
  z : Option ℝ
  confidence : Option ℝ

/-- Frame of `src/models.py`: a timestamp in seconds plus the keypoints. -/
structure Frame where
  timestamp : ℝ
  keypoints : List KeyPoint

/-- MotionData of `src/models.py`: frames, optional tempo, optional opaque
reference-motion identifier (unused by the engine). -/
structure MotionData where
  frames : List Frame
  audio_bpm : Option ℝ
  reference_motion : Option String

/-- TimingMetrics of `src/models.py`. -/
structure TimingMetrics where
  avg_lag_ms : ℝ
  sync_score : ℝ
  on_beat_percentage : ℝ

/-- MovementMetrics of `src/models.py`. -/
structure MovementMetrics where
  smoothness_score : ℝ
  accuracy_score : ℝ
  energy_score : ℝ
  form_score : ℝ

/-- FeedbackItem of `src/models.py`. -/
structure FeedbackItem where
  category : String
  message : String
  severity : String
  timestamp : Option ℝ

/-- Structural validity enforced by the pydantic validators of
`src/models.py`: non-empty frame list, each frame non-empty, and
`audio_bpm` strictly positive when present. -/
def ValidMotionData (md : MotionData) : Prop :=
  md.frames ≠ [] ∧ (∀ f ∈ md.frames, f.keypoints ≠ []) ∧
    ∀ bpm, md.audio_bpm = some bpm → 0 < bpm

/-! ### numpy primitives -/

/-- Mean of a list of reals (`np.mean`). -/
def npMean (l : List ℝ) : ℝ := l.sum / l.length

/-- Population variance (`np.var`). -/
def npVar (l : List ℝ) : ℝ := ((l.map fun x => (x - npMean l) ^ 2).sum) / l.length

/-- Standard deviation (`np.std`). -/
def npStd (l : List ℝ) : ℝ := Real.sqrt (npVar l)

/-- Clipping (`np.clip`), which is `minimum(maximum(a, lo), hi)`. -/
def npClip (x lo hi : ℝ) : ℝ := min (max x lo) hi

/-- Percentile with the default linear-interpolation method
(`np.percentile`): sort ascending, take the fractional rank
`(n-1)·q/100`, and interpolate between the two bracketing order
statistics.  The rank arithmetic is exact in `ℚ`. -/
def npPercentile (l : List ℝ) (q : ℚ) : ℝ :=
  let sorted := List.insertionSort (fun a b : ℝ => a ≤ b) l
  let h : ℚ := ((l.length : ℚ) - 1) * q / 100
  let f : ℕ := (Int.floor h).toNat
  let lower := sorted.getD f 0
  let upper := sorted.getD (f + 1) lower
  lower + ((h - f : ℚ) : ℝ) * (upper - lower)

/-- Python `round`: round half to even (banker's rounding). -/
def pyRound (x : ℝ) : ℤ :=
  if x - Int.floor x < 1 / 2 then Int.floor x
  else if 1 / 2 < x - Int.floor x then Int.floor x + 1
  else if Even (Int.floor x) then Int.floor x else Int.floor x + 1

/-! ### Kinematics extractor (`_calculate_velocities`, `_calculate_accelerations`) -/

/-- Euclidean displacement between two corresponding keypoints; a missing
`z` is treated as `0` (`kp.z or 0` in the source). -/
def pairDisplacement (kp_prev kp_curr : KeyPoint) : ℝ :=
  Real.sqrt ((kp_curr.x - kp_prev.x) ^ 2 + (kp_curr.y - kp_prev.y) ^ 2 +
    (kp_curr.z.getD 0 - kp_prev.z.getD 0) ^ 2)

/-- Total displacement over the keypoint indices present in both frames
(the source pairs index `j` of the current frame with index `j` of the
previous frame whenever the latter exists, i.e. a zip). -/
def frameDisplacement (prev curr : Frame) : ℝ :=
  ((curr.keypoints.zip prev.keypoints).map fun p => pairDisplacement p.2 p.1).sum

/-- Number of keypoint pairs formed between two consecutive frames. -/
def pairCount (prev curr : Frame) : ℕ :=
  min curr.keypoints.length prev.keypoints.length

/-- Velocity step of the loop body of `_calculate_velocities`: average
keypoint displacement divided by `dt`, where a non-positive `dt` is
replaced by the default `0.033` (the source comment says `~30fps`). -/
def frameVelocity (prev curr : Frame) : ℝ :=
  let dt0 := curr.timestamp - prev.timestamp
  let dt := if dt0 ≤ 0 then 0.033 else dt0
  let avg_displacement := frameDisplacement prev curr / (max (pairCount prev curr) 1 : ℕ)
  avg_displacement / dt

/-- `_calculate_velocities` of `src/analyzer.py`: `[0.0]` for fewer than
two frames, otherwise one velocity per consecutive pair of frames. -/
def calculate_velocities (frames : List Frame) : List ℝ :=
  if frames.length < 2 then [0]
  else (frames.zip frames.tail).map fun p => frameVelocity p.1 p.2

/-- `_calculate_accelerations` of `src/analyzer.py`: `np.diff` of the
velocities, `[0.0]` for fewer than two velocities. -/
def calculate_accelerations (velocities : List ℝ) : List ℝ :=
  if velocities.length < 2 then [0]
  else (velocities.zip velocities.tail).map fun p => p.2 - p.1

/-! ### Peak detector (`_detect_movement_peaks`) -/

/-- One iteration of the peak loop: index `i` contributes the approximate
timestamp `i * 0.033` (the source comment says `Assume 30fps`) when its
velocity exceeds the threshold and strictly exceeds both neighbors. -/
def peakStep (v : List ℝ) (threshold : ℝ) (i : ℕ) (acc : List ℝ) : List ℝ :=
  if v.getD i 0 > threshold ∧ v.getD i 0 > v.getD (i - 1) 0 ∧ v.getD i 0 > v.getD (i + 1) 0
  then ((i : ℝ) * 0.033) :: acc else acc

/-- The peak loop of `_detect_movement_peaks`, over `range(1, len(v)-1)`. -/
def peakTimes (v : List ℝ) (threshold : ℝ) : List ℝ :=
  (List.range' 1 (v.length - 2)).foldr (peakStep v threshold) []

/-- `_detect_movement_peaks` of `src/analyzer.py` at its default
`threshold_percentile = 75`. -/
def detect_movement_peaks (v : List ℝ) : List ℝ :=
  if v.length < 3 then [] else peakTimes v (npPercentile v 75)

/-! ### Timing analyzer (`_analyze_timing`) -/

/-- Lag of one peak against the beat grid: distance to the nearest beat,
the nearest beat being `round(peak_time / beat_interval) * beat_interval`. -/
def peakLag (beat_interval peak_time : ℝ) : ℝ :=
  |peak_time - (pyRound (peak_time / beat_interval) : ℝ) * beat_interval|

/-- `_analyze_timing` of `src/analyzer.py`.  With a tempo present it scores
the detected movement peaks against the beat grid; otherwise it returns
the fixed defaults. -/
def analyze_timing (md : MotionData) : TimingMetrics :=
  match md.audio_bpm with
  | some bpm =>
    let beat_interval := 60 / bpm
    let velocities := calculate_velocities md.frames
    let peaks := detect_movement_peaks velocities
    let lags := peaks.map (peakLag beat_interval)
    let total_peaks := peaks.length
    let lag_sum := lags.sum
    let on_beat_count : ℕ := (lags.map fun lag => if lag < 0.1 then 1 else 0).sum
    let avg_lag_ms := lag_sum / (max total_peaks 1 : ℕ) * 1000
    let on_beat_percentage := (on_beat_count : ℝ) / (max total_peaks 1 : ℕ) * 100
    let sync_score := 1 - min (avg_lag_ms / 200) 1
    ⟨avg_lag_ms, sync_score, on_beat_percentage⟩
  | none => ⟨0, 1, 100⟩

/-! ### Movement analyzer (`_analyze_movement` and its helpers) -/

/-- `_calculate_smoothness`: inverse of one plus variance over 100, clipped. -/
def calculate_smoothness (accelerations : List ℝ) : ℝ :=
  if accelerations.length = 0 then 1
  else npClip (1 / (1 + npVar accelerations / 100)) 0 1

/-- `_calculate_energy`: mean velocity over 10, clipped; neutral `0.5` for
an empty velocity list. -/
def calculate_energy (velocities : List ℝ) : ℝ :=
  if velocities.length = 0 then 0.5
  else npClip (npMean velocities / 10) 0 1

/-- Per-frame body of the `_calculate_accuracy` loop: standard deviation of
keypoint distances to the frame centroid, `none` for an empty frame (the
source `continue`s on zero keypoints and only appends when `distances` is
non-empty). -/
def frameSpread (f : Frame) : Option ℝ :=
  if f.keypoints.length = 0 then none
  else
    let center_x := npMean (f.keypoints.map KeyPoint.x)
    let center_y := npMean (f.keypoints.map KeyPoint.y)
    let distances := f.keypoints.map fun kp =>
      Real.sqrt ((kp.x - center_x) ^ 2 + (kp.y - center_y) ^ 2)
    if distances.length = 0 then none else some (npStd distances)

/-- `_calculate_accuracy` of `src/analyzer.py`. -/
def calculate_accuracy (frames : List Frame) : ℝ :=
  if frames.length < 2 then 1
  else
    let consistency_scores := frames.filterMap frameSpread
    if consistency_scores.length = 0 then 1
    else
      let avg_std := npMean consistency_scores
      npClip (1 / (1 + avg_std)) 0 1

/-- Per-frame body of the `_calculate_form` loop: mean confidence of the
keypoints that carry one, `none` when the frame is empty or no keypoint
has a confidence. -/
def frameFormScore (f : Frame) : Option ℝ :=
  if f.keypoints.length = 0 then none
  else
    let confidences := f.keypoints.filterMap KeyPoint.confidence
    if confidences.length = 0 then none else some (npMean confidences)

/-- `_calculate_form` of `src/analyzer.py`: mean of the per-frame mean
confidences, clipped; `0.8` when no confidence data exists anywhere. -/
def calculate_form (frames : List Frame) : ℝ :=
  if frames.length = 0 then 1
  else
    let form_scores := frames.filterMap frameFormScore
    if form_scores.length = 0 then 0.8
    else npClip (npMean form_scores) 0 1

/-- `_analyze_movement` of `src/analyzer.py`. -/
def analyze_movement (md : MotionData) : MovementMetrics :=
  let velocities := calculate_velocities md.frames
  let accelerations := calculate_accelerations velocities
  ⟨calculate_smoothness accelerations, calculate_accuracy md.frames,
    calculate_energy velocities, calculate_form md.frames⟩

/-! ### Feedback synthesizer (`_generate_feedback`) -/

/-- Timing rules: warning below `0.7`, praise at or above `0.9` (the
interpolated percentage of the warning message is elided). -/
def timingFeedback (t : TimingMetrics) : List FeedbackItem :=
  if t.sync_score < 0.7 then
    [⟨"timing", "Your timing is off. Try to sync your movements with the beat.",
      "warning", none⟩]
  else if t.sync_score ≥ 0.9 then
    [⟨"timing", "Excellent timing! You are perfectly synced with the music.",
      "info", none⟩]
  else []

/-- Smoothness rule: warning below `0.6`. -/
def smoothnessFeedback (m : MovementMetrics) : List FeedbackItem :=
  if m.smoothness_score < 0.6 then
    [⟨"form", "Your movements are a bit jerky. Focus on flowing smoothly between positions.",
      "warning", none⟩]
  else []

/-- Energy rules: push below `0.5`, praise above `0.9`. -/
def energyFeedback (m : MovementMetrics) : List FeedbackItem :=
  if m.energy_score < 0.5 then
    [⟨"energy", "Put more energy into your movements! Go bigger and stronger.",
      "info", none⟩]
  else if m.energy_score > 0.9 then
    [⟨"energy", "Great energy! Keep up that intensity.", "info", none⟩]
  else []

/-- Form rule: warning below `0.7`. -/
def formFeedback (m : MovementMetrics) : List FeedbackItem :=
  if m.form_score < 0.7 then
    [⟨"form", "Pay attention to your posture and alignment. Keep your core engaged.",
      "warning", none⟩]
  else []

/-- Accuracy rule: warning below `0.7`. -/
def accuracyFeedback (m : MovementMetrics) : List FeedbackItem :=
  if m.accuracy_score < 0.7 then
    [⟨"accuracy", "Your movements are inconsistent. Try to replicate the reference motion more precisely.",
      "warning", none⟩]
  else []

/-- The fallback item appended when no rule fired. -/
def fallbackItem : FeedbackItem :=
  ⟨"overall", "Outstanding performance! All metrics look great.", "info", none⟩

/-- Items produced by the seven threshold rules, in the emission order of
`_generate_feedback`. -/
def ruleItems (t : TimingMetrics) (m : MovementMetrics) : List FeedbackItem :=
  timingFeedback t ++ smoothnessFeedback m ++ energyFeedback m ++
    formFeedback m ++ accuracyFeedback m

/-- The disjunction of the seven rule conditions of `_generate_feedback`. -/
def rulesFired (t : TimingMetrics) (m : MovementMetrics) : Prop :=
  t.sync_score < 0.7 ∨ t.sync_score ≥ 0.9 ∨ m.smoothness_score < 0.6 ∨
    m.energy_score < 0.5 ∨ m.energy_score > 0.9 ∨ m.form_score < 0.7 ∨
    m.accuracy_score < 0.7

/-- `_generate_feedback` of `src/analyzer.py`: the rule items, or the single
fallback item when no rule fired. -/
def generate_feedback (t : TimingMetrics) (m : MovementMetrics) : List FeedbackItem :=
  if (ruleItems t m).length = 0 then [fallbackItem] else ruleItems t m

/-! ### Top level (`analyze`, `calculate_overall_score`) -/

/-- `analyze` of `src/analyzer.py`. -/
def analyze (md : MotionData) : TimingMetrics × MovementMetrics × List FeedbackItem :=
  let timing_metrics := analyze_timing md
  let movement_metrics := analyze_movement md
  (timing_metrics, movement_metrics, generate_feedback timing_metrics movement_metrics)

/-- `calculate_overall_score` of `src/analyzer.py`: fixed weighted
combination, clipped to `[0, 100]`. -/
def calculate_overall_score (t : TimingMetrics) (m : MovementMetrics) : ℝ :=
  npClip ((0.25 * t.sync_score + 0.20 * m.smoothness_score + 0.25 * m.accuracy_score +
    0.15 * m.energy_score + 0.15 * m.form_score) * 100) 0 100

/-! ### Concrete inputs used by the theorems -/

/-- Frame at time `0` holding the single keypoint `(0, 0)`. -/
def frame00 : Frame := ⟨0, [⟨0, 0, none, none⟩]⟩

/-- Frame at time `0.1` holding the single keypoint `(1, 0)`. -/
def frame10 : Frame := ⟨0.1, [⟨1, 0, none, none⟩]⟩

/-- The two-frame scenario of the spec: no depth, no confidence, no tempo. -/
def mdScenario : MotionData := ⟨[frame00, frame10], none, none⟩

/-- A single-frame input with a tempo attached. -/
def mdSingle : MotionData := ⟨[frame00], some 120, none⟩

/-- Frame at time `0` holding the single keypoint `(1, 0)` (used to build a
pair of frames with non-increasing timestamps). -/
def frameDup : Frame := ⟨0, [⟨1, 0, none, none⟩]⟩

/-! ### Range lemmas for the individual scores -/

theorem npClip_le (x lo hi : ℝ) : npClip x lo hi ≤ hi := min_le_right _ _

theorem le_npClip (x lo hi : ℝ) (h : lo ≤ hi) : lo ≤ npClip x lo hi :=
  le_min (le_max_right _ _) h

theorem smoothness_bounds (a : List ℝ) :
    0 ≤ calculate_smoothness a ∧ calculate_smoothness a ≤ 1 := by
  unfold calculate_smoothness
  split
  · norm_num
  · exact ⟨le_npClip _ _ _ (by norm_num), npClip_le _ _ _⟩

theorem energy_bounds (v : List ℝ) :
    0 ≤ calculate_energy v ∧ calculate_energy v ≤ 1 := by
  unfold calculate_energy
  split
  · norm_num
  · exact ⟨le_npClip _ _ _ (by norm_num), npClip_le _ _ _⟩

theorem accuracy_bounds (frames : List Frame) :
    0 ≤ calculate_accuracy frames ∧ calculate_accuracy frames ≤ 1 := by
  unfold calculate_accuracy
  split
  · norm_num
  · dsimp only
    split
    · norm_num
    · exact ⟨le_npClip _ _ _ (by norm_num), npClip_le _ _ _⟩

theorem form_bounds (frames : List Frame) :
    0 ≤ calculate_form frames ∧ calculate_form frames ≤ 1 := by
  unfold calculate_form
  split
  · norm_num
  · dsimp only
    split
    · norm_num
    · exact ⟨le_npClip _ _ _ (by norm_num), npClip_le _ _ _⟩

theorem timing_bounds (md : MotionData) :
    0 ≤ (analyze_timing md).avg_lag_ms ∧
      0 ≤ (analyze_timing md).sync_score ∧ (analyze_timing md).sync_score ≤ 1 := by
  unfold analyze_timing
  cases hb : md.audio_bpm with
  | none => norm_num
  | some bpm =>
    simp only
    have hsum : 0 ≤ ((detect_movement_peaks (calculate_velocities md.frames)).map
        (peakLag (60 / bpm))).sum := by
      apply List.sum_nonneg
      intro x hx
      rcases List.mem_map.mp hx with ⟨t, _, rfl⟩
      exact abs_nonneg _
    have havg : 0 ≤ ((detect_movement_peaks (calculate_velocities md.frames)).map
        (peakLag (60 / bpm))).sum /
        ((max (detect_movement_peaks (calculate_velocities md.frames)).length 1 : ℕ) : ℝ) *
        1000 := by
      apply mul_nonneg (div_nonneg hsum (Nat.cast_nonneg _)) (by norm_num)
    refine ⟨havg, ?_, ?_⟩
    · have : min (((detect_movement_peaks (calculate_velocities md.frames)).map
          (peakLag (60 / bpm))).sum /
          ((max (detect_movement_peaks (calculate_velocities md.frames)).length 1 : ℕ) : ℝ) *
          1000 / 200) 1 ≤ 1 := min_le_right _ _
      linarith
    · have : (0 : ℝ) ≤ min (((detect_movement_peaks (calculate_velocities md.frames)).map
          (peakLag (60 / bpm))).sum /
          ((max (detect_movement_peaks (calculate_velocities md.frames)).length 1 : ℕ) : ℝ) *
          1000 / 200) 1 :=
        le_min (div_nonneg havg (by norm_num)) zero_le_one
      linarith

theorem overall_bounds (t : TimingMetrics) (m : MovementMetrics) :
    0 ≤ calculate_overall_score t m ∧ calculate_overall_score t m ≤ 100 :=
  ⟨le_npClip _ _ _ (by norm_num), npClip_le _ _ _⟩

/-- C1: for every structurally valid MotionData (non-empty frames, each
frame non-empty, positive tempo when present), the metrics produced by
`analyze` satisfy `sync_score`, `smoothness_score`, `accuracy_score`,
`energy_score`, `form_score ∈ [0,1]`, and `calculate_overall_score` on
those metrics lies in `[0,100]`. -/
theorem analyze_scores_bounded (md : MotionData) (hv : ValidMotionData md) :
    (0 ≤ (analyze md).1.sync_score ∧ (analyze md).1.sync_score ≤ 1) ∧
    (0 ≤ (analyze md).2.1.smoothness_score ∧ (analyze md).2.1.smoothness_score ≤ 1) ∧
    (0 ≤ (analyze md).2.1.accuracy_score ∧ (analyze md).2.1.accuracy_score ≤ 1) ∧
    (0 ≤ (analyze md).2.1.energy_score ∧ (analyze md).2.1.energy_score ≤ 1) ∧
    (0 ≤ (analyze md).2.1.form_score ∧ (analyze md).2.1.form_score ≤ 1) ∧
    (0 ≤ calculate_overall_score (analyze md).1 (analyze md).2.1 ∧
      calculate_overall_score (analyze md).1 (analyze md).2.1 ≤ 100) := by
  have ht := timing_bounds md
  refine ⟨⟨ht.2.1, ht.2.2⟩, ?_, ?_, ?_, ?_, overall_bounds _ _⟩
  · exact smoothness_bounds _
  · exact accuracy_bounds _
  · exact energy_bounds _
  · exact form_bounds _

/-- Witness for `analyze_scores_bounded`: the two-frame scenario input is
structurally valid, and its sync score is bounded. -/
theorem analyze_scores_bounded_witness :
    ValidMotionData mdScenario ∧ (analyze mdScenario).1.sync_score ≤ 1 := by
  have hv : ValidMotionData mdScenario := by
    refine ⟨by simp [mdScenario], ?_, ?_⟩
    · intro f hf
      simp only [mdScenario, List.mem_cons, List.mem_singleton] at hf
      rcases hf with rfl | hf
      · simp [frame00]
      · rcases hf with rfl | hf
        · simp [frame10]
        · simp at hf
    · intro bpm hbpm
      simp [mdScenario] at hbpm
  exact ⟨hv, (analyze_scores_bounded mdScenario hv).1.2⟩

/-! ### Timing defaults -/

/-- C3: for every MotionData whose `audio_bpm` is absent, `analyze` returns
timing metrics `avg_lag_ms = 0.0`, `sync_score = 1.0` and
`on_beat_percentage = 100.0`, regardless of the frame content. -/
theorem analyze_no_tempo_defaults (md : MotionData) (h : md.audio_bpm = none) :
    (analyze md).1.avg_lag_ms = 0 ∧ (analyze md).1.sync_score = 1 ∧
      (analyze md).1.on_beat_percentage = 100 := by
  simp [analyze, analyze_timing, h]

/-- Witness for `analyze_no_tempo_defaults`: the two-frame scenario has no
tempo and gets the default sync score. -/
theorem analyze_no_tempo_defaults_witness :
    mdScenario.audio_bpm = none ∧ (analyze mdScenario).1.sync_score = 1 :=
  ⟨rfl, (analyze_no_tempo_defaults mdScenario rfl).2.1⟩

/-- C5: for every MotionData with a tempo for which the peak detector
returns zero peaks, the timing metrics are `on_beat_percentage = 0`,
`avg_lag_ms = 0` and `sync_score = 1.0`. -/
theorem zero_peaks_timing (md : MotionData) (bpm : ℝ) (hb : md.audio_bpm = some bpm)
    (hp : detect_movement_peaks (calculate_velocities md.frames) = []) :
    (analyze md).1.on_beat_percentage = 0 ∧ (analyze md).1.avg_lag_ms = 0 ∧
      (analyze md).1.sync_score = 1 := by
  simp only [analyze]
  unfold analyze_timing
  rw [hb]
  simp [hp]

/-- Witness for `zero_peaks_timing`: a single-frame input with a tempo has
a one-element velocity list, hence no peaks, and gets the zero-peak
metrics. -/
theorem zero_peaks_timing_witness :
    mdSingle.audio_bpm = some 120 ∧
      detect_movement_peaks (calculate_velocities mdSingle.frames) = [] ∧
      (analyze mdSingle).1.sync_score = 1 := by
  have hp : detect_movement_peaks (calculate_velocities mdSingle.frames) = [] := by
    simp [calculate_velocities, detect_movement_peaks, mdSingle, frame00]
  exact ⟨rfl, hp, (zero_peaks_timing mdSingle 120 rfl hp).2.2⟩

/-! ### Feedback synthesizer -/

theorem timingFeedback_eq_nil_iff (t : TimingMetrics) :
    timingFeedback t = [] ↔ ¬(t.sync_score < 0.7) ∧ ¬(t.sync_score ≥ 0.9) := by
  unfold timingFeedback
  split_ifs <;> simp_all

theorem smoothnessFeedback_eq_nil_iff (m : MovementMetrics) :
    smoothnessFeedback m = [] ↔ ¬(m.smoothness_score < 0.6) := by
  unfold smoothnessFeedback
  split_ifs <;> simp_all

theorem energyFeedback_eq_nil_iff (m : MovementMetrics) :
    energyFeedback m = [] ↔ ¬(m.energy_score < 0.5) ∧ ¬(m.energy_score > 0.9) := by
  unfold energyFeedback
  split_ifs <;> simp_all

theorem formFeedback_eq_nil_iff (m : MovementMetrics) :
    formFeedback m = [] ↔ ¬(m.form_score < 0.7) := by
  unfold formFeedback
  split_ifs <;> simp_all

theorem accuracyFeedback_eq_nil_iff (m : MovementMetrics) :
    accuracyFeedback m = [] ↔ ¬(m.accuracy_score < 0.7) := by
  unfold accuracyFeedback
  split_ifs <;> simp_all

theorem ruleItems_eq_nil_iff (t : TimingMetrics) (m : MovementMetrics) :
    ruleItems t m = [] ↔ ¬ rulesFired t m := by
  unfold ruleItems rulesFired
  push_neg
  simp only [List.append_eq_nil, timingFeedback_eq_nil_iff, smoothnessFeedback_eq_nil_iff,
    energyFeedback_eq_nil_iff, formFeedback_eq_nil_iff, accuracyFeedback_eq_nil_iff]
  push_neg
  tauto

theorem ruleItems_not_overall (t : TimingMetrics) (m : MovementMetrics) :
    ∀ x ∈ ruleItems t m, x.category ≠ "overall" := by
  intro x hx
  unfold ruleItems timingFeedback smoothnessFeedback energyFeedback formFeedback
    accuracyFeedback at hx
  split_ifs at hx <;> simp_all <;>
    rcases hx with rfl | rfl | rfl | rfl | rfl | rfl <;> simp

/-- C4: for every pair of TimingMetrics and MovementMetrics, the feedback
list is non-empty; when none of the seven threshold rules fires the list
is exactly the single fallback item (category `overall`, severity `info`),
and when any rule fires the fallback item does not appear at all. -/
theorem feedback_nonempty_fallback (t : TimingMetrics) (m : MovementMetrics) :
    generate_feedback t m ≠ [] ∧
    (¬ rulesFired t m → generate_feedback t m = [fallbackItem]) ∧
    (rulesFired t m → fallbackItem ∉ generate_feedback t m) := by
  by_cases hr : ruleItems t m = []
  · have hfb : generate_feedback t m = [fallbackItem] := by
      unfold generate_feedback
      rw [if_pos (by rw [hr]; rfl)]
    refine ⟨by rw [hfb]; simp, fun _ => hfb, fun hf => ?_⟩
    exact absurd hf ((ruleItems_eq_nil_iff t m).mp hr)
  · have hfb : generate_feedback t m = ruleItems t m := by
      unfold generate_feedback
      rw [if_neg (by simpa using hr)]
    refine ⟨by rw [hfb]; exact hr, fun hnf => ?_, fun _ hmem => ?_⟩
    · exact absurd ((ruleItems_eq_nil_iff t m).mpr hnf) hr
    · rw [hfb] at hmem
      exact ruleItems_not_overall t m fallbackItem hmem rfl

/-- Witness for `feedback_nonempty_fallback`: with every metric in the
silent band, no rule fires and the fallback alone is returned. -/
theorem feedback_nonempty_fallback_witness :
    generate_feedback ⟨0, 0.8, 80⟩ ⟨0.8, 0.8, 0.8, 0.8⟩ = [fallbackItem] := by
  apply (feedback_nonempty_fallback ⟨0, 0.8, 80⟩ ⟨0.8, 0.8, 0.8, 0.8⟩).2.1
  unfold rulesFired
  push_neg
  norm_num

/-- C9: metrics with `sync_score = 0.5`, `smoothness_score = 0.9`,
`energy_score = 0.95`, `form_score = 0.9`, `accuracy_score = 0.9` yield
exactly two feedback items, in order: a timing warning then an energy
info item, with no others and no fallback. -/
theorem feedback_ordering (t : TimingMetrics) (m : MovementMetrics)
    (h1 : t.sync_score = 0.5) (h2 : m.smoothness_score = 0.9)
    (h3 : m.energy_score = 0.95) (h4 : m.form_score = 0.9)
    (h5 : m.accuracy_score = 0.9) :
    (generate_feedback t m).map (fun fb => (fb.category, fb.severity)) =
      [("timing", "warning"), ("energy", "info")] := by
  unfold generate_feedback ruleItems timingFeedback smoothnessFeedback energyFeedback
    formFeedback accuracyFeedback
  rw [h1, h2, h3, h4, h5]
  norm_num

/-- Witness for `feedback_ordering` at concrete metric records. -/
theorem feedback_ordering_witness :
    (generate_feedback ⟨0, 0.5, 50⟩ ⟨0.9, 0.9, 0.95, 0.9⟩).map
        (fun fb => (fb.category, fb.severity)) =
      [("timing", "warning"), ("energy", "info")] :=
  feedback_ordering ⟨0, 0.5, 50⟩ ⟨0.9, 0.9, 0.95, 0.9⟩ rfl rfl rfl rfl rfl

/-! ### Peak detector -/

theorem mem_foldr_peakStep (v : List ℝ) (th : ℝ) (l : List ℕ) (t : ℝ) :
    t ∈ l.foldr (peakStep v th) [] ↔
      ∃ i ∈ l, (v.getD i 0 > th ∧ v.getD i 0 > v.getD (i - 1) 0 ∧
        v.getD i 0 > v.getD (i + 1) 0) ∧ t = (i : ℝ) * 0.033 := by
  induction l with
  | nil => simp
  | cons a l ih =>
    rw [List.foldr_cons, peakStep]
    split_ifs with ha
    · simp only [List.mem_cons, ih]
      constructor
      · rintro (rfl | ⟨i, hi, hc, ht⟩)
        · exact ⟨a, Or.inl rfl, ha, rfl⟩
        · exact ⟨i, Or.inr hi, hc, ht⟩
      · rintro ⟨i, hi, hc, ht⟩
        rcases hi with rfl | hi2
        · exact Or.inl ht
        · exact Or.inr ⟨i, hi2, hc, ht⟩
    · rw [ih]
      constructor
      · rintro ⟨i, hi, hc, ht⟩
        exact ⟨i, List.mem_cons_of_mem a hi, hc, ht⟩
      · rintro ⟨i, hi, hc, ht⟩
        rcases List.mem_cons.mp hi with rfl | hi2
        · exact absurd hc ha
        · exact ⟨i, hi2, hc, ht⟩

theorem mem_detect_movement_peaks (v : List ℝ) (t : ℝ) :
    t ∈ detect_movement_peaks v ↔
      3 ≤ v.length ∧ ∃ i, 1 ≤ i ∧ i + 1 < v.length ∧
        (v.getD i 0 > npPercentile v 75 ∧ v.getD i 0 > v.getD (i - 1) 0 ∧
          v.getD i 0 > v.getD (i + 1) 0) ∧ t = (i : ℝ) * 0.033 := by
  unfold detect_movement_peaks peakTimes
  split_ifs with h3
  · simp only [List.not_mem_nil, false_iff]
    rintro ⟨h, -⟩
    omega
  · rw [mem_foldr_peakStep]
    constructor
    · rintro ⟨i, hi, hc, ht⟩
      rw [List.mem_range'_1] at hi
      exact ⟨by omega, i, hi.1, by omega, hc, ht⟩
    · rintro ⟨-, i, h1, h2, hc, ht⟩
      exact ⟨i, List.mem_range'_1.mpr ⟨h1, by omega⟩, hc, ht⟩

theorem percentile_010 : npPercentile [(0:ℝ), 1, 0] 75 = 0.5 := by
  have hsort : List.insertionSort (fun a b : ℝ => a ≤ b) [(0:ℝ), 1, 0] = [0, 0, 1] := by
    simp [List.insertionSort, List.orderedInsert]
    norm_num
  simp only [npPercentile, hsort]
  norm_num

theorem detect_v010 : detect_movement_peaks [(0:ℝ), 1, 0] = [0.033] := by
  unfold detect_movement_peaks
  rw [if_neg (by norm_num)]
  unfold peakTimes
  have hr : List.range' 1 ([(0:ℝ), 1, 0].length - 2) = [1] := by norm_num [List.range']
  rw [hr]
  simp only [List.foldr_cons, List.foldr_nil]
  unfold peakStep
  rw [if_pos]
  · norm_num
  · refine ⟨?_, ?_, ?_⟩ <;> simp [percentile_010] <;> norm_num

/-- C7 counterexample: on the velocity sequence `[0, 1, 0]` the detector
reports the peak at index 1 with timestamp `0.033`, which is not
`1 × (1/30)`. -/
theorem peak_time_counterexample :
    detect_movement_peaks [(0:ℝ), 1, 0] = [0.033] ∧
      (0.033 : ℝ) ≠ ((1 : ℕ) : ℝ) * (1 / 30) :=
  ⟨detect_v010, by norm_num⟩

/-- C7 (amended): every peak timestamp returned by the peak detector
equals the peak sample index multiplied by `0.033` seconds (the hardcoded
approximation of a 30-fps cadence, not exactly `1/30`), regardless of the
frames true timestamps. -/
theorem peak_time_amended (v : List ℝ) (t : ℝ) (h : t ∈ detect_movement_peaks v) :
    ∃ i : ℕ, 1 ≤ i ∧ i + 1 < v.length ∧
      v.getD i 0 > npPercentile v 75 ∧ v.getD i 0 > v.getD (i - 1) 0 ∧
      v.getD i 0 > v.getD (i + 1) 0 ∧ t = (i : ℝ) * 0.033 := by
  rcases (mem_detect_movement_peaks v t).mp h with ⟨h3, i, h1, h2, hc, ht⟩
  exact ⟨i, h1, h2, hc.1, hc.2.1, hc.2.2, ht⟩

/-- Witness for `peak_time_amended`: the timestamp `0.033` reported on
`[0, 1, 0]` comes from peak index 1. -/
theorem peak_time_amended_witness :
    (0.033 : ℝ) ∈ detect_movement_peaks [(0:ℝ), 1, 0] ∧
      ∃ i : ℕ, 1 ≤ i ∧ i + 1 < ([(0:ℝ), 1, 0] : List ℝ).length ∧
        ([(0:ℝ), 1, 0] : List ℝ).getD i 0 > npPercentile [(0:ℝ), 1, 0] 75 ∧
        ([(0:ℝ), 1, 0] : List ℝ).getD i 0 > ([(0:ℝ), 1, 0] : List ℝ).getD (i - 1) 0 ∧
        ([(0:ℝ), 1, 0] : List ℝ).getD i 0 > ([(0:ℝ), 1, 0] : List ℝ).getD (i + 1) 0 ∧
        (0.033 : ℝ) = (i : ℝ) * 0.033 := by
  have hm : (0.033 : ℝ) ∈ detect_movement_peaks [(0:ℝ), 1, 0] := by
    rw [detect_v010]
    simp
  exact ⟨hm, peak_time_amended _ _ hm⟩

/-- C8: the peak detector returns the empty list on fewer than 3 samples;
otherwise index `i` is reported (as timestamp `i * 0.033`) exactly when
`1 ≤ i ≤ len − 2`, its value exceeds the 75th percentile and strictly
exceeds both neighbors; indices 0 and `len − 1` are never reported. -/
theorem peak_characterization (v : List ℝ) :
    (v.length < 3 → detect_movement_peaks v = []) ∧
    ∀ i : ℕ, ((i : ℝ) * 0.033 ∈ detect_movement_peaks v ↔
      1 ≤ i ∧ i + 1 < v.length ∧ v.getD i 0 > npPercentile v 75 ∧
      v.getD i 0 > v.getD (i - 1) 0 ∧ v.getD i 0 > v.getD (i + 1) 0) := by
  constructor
  · intro h
    unfold detect_movement_peaks
    rw [if_pos h]
  · intro i
    rw [mem_detect_movement_peaks]
    constructor
    · rintro ⟨h3, j, hj1, hj2, hc, ht⟩
      have hij : i = j := by
        have hr := mul_right_cancel₀ (show (0.033:ℝ) ≠ 0 by norm_num) ht
        exact_mod_cast hr
      subst hij
      exact ⟨hj1, hj2, hc.1, hc.2.1, hc.2.2⟩
    · rintro ⟨h1, h2, hc1, hc2, hc3⟩
      exact ⟨by omega, i, h1, h2, ⟨hc1, hc2, hc3⟩, rfl⟩

/-- Witness for `peak_characterization`: index 1 of `[0, 1, 0]` is
reported as a peak. -/
theorem peak_characterization_witness :
    ((1:ℕ) : ℝ) * 0.033 ∈ detect_movement_peaks [(0:ℝ), 1, 0] := by
  refine ((peak_characterization [(0:ℝ), 1, 0]).2 1).mpr
    ⟨le_refl 1, by norm_num, ?_, ?_, ?_⟩ <;> simp [percentile_010] <;> norm_num

/-! ### Concrete scenario evaluation -/

theorem disp_scenario : frameDisplacement frame00 frame10 = 1 := by
  simp [frameDisplacement, pairDisplacement, frame00, frame10]

theorem vel_scenario : frameVelocity frame00 frame10 = 10 := by
  unfold frameVelocity
  dsimp only
  rw [if_neg (by norm_num [frame00, frame10]), disp_scenario]
  norm_num [pairCount, frame00, frame10]

theorem velocities_scenario : calculate_velocities mdScenario.frames = [10] := by
  show calculate_velocities [frame00, frame10] = [10]
  unfold calculate_velocities
  rw [if_neg (by norm_num)]
  simp [vel_scenario]

theorem accelerations_single (x : ℝ) : calculate_accelerations [x] = [0] := by
  simp [calculate_accelerations]

theorem accelerations_scenario :
    calculate_accelerations (calculate_velocities mdScenario.frames) = [0] := by
  rw [velocities_scenario, accelerations_single]

theorem smoothness_single (x : ℝ) : calculate_smoothness [x] = 1 := by
  unfold calculate_smoothness
  rw [if_neg (by norm_num)]
  norm_num [npClip, npVar, npMean]

theorem energy_scenario : calculate_energy [10] = 1 := by
  unfold calculate_energy
  rw [if_neg (by norm_num)]
  norm_num [npClip, npMean]

theorem spread00 : frameSpread frame00 = some 0 := by
  unfold frameSpread
  rw [if_neg (by norm_num [frame00])]
  simp [frame00, npMean, npStd, npVar]

theorem spread10 : frameSpread frame10 = some 0 := by
  unfold frameSpread
  rw [if_neg (by norm_num [frame10])]
  simp [frame10, npMean, npStd, npVar]

theorem accuracy_scenario : calculate_accuracy mdScenario.frames = 1 := by
  show calculate_accuracy [frame00, frame10] = 1
  unfold calculate_accuracy
  rw [if_neg (by norm_num)]
  dsimp only
  have hf : List.filterMap frameSpread [frame00, frame10] = [0, 0] := by
    simp [List.filterMap_cons, spread00, spread10]
  rw [hf]
  norm_num [npMean, npClip]

theorem formscore00 : frameFormScore frame00 = none := by
  unfold frameFormScore
  rw [if_neg (by norm_num [frame00])]
  simp [frame00]

theorem formscore10 : frameFormScore frame10 = none := by
  unfold frameFormScore
  rw [if_neg (by norm_num [frame10])]
  simp [frame10]

theorem form_scenario : calculate_form mdScenario.frames = 0.8 := by
  show calculate_form [frame00, frame10] = 0.8
  unfold calculate_form
  rw [if_neg (by norm_num)]
  dsimp only
  have hf : List.filterMap frameFormScore [frame00, frame10] = [] := by
    simp [List.filterMap_cons, formscore00, formscore10]
  rw [hf]
  norm_num

theorem movement_scenario : (analyze mdScenario).2.1 = ⟨1, 1, 1, 0.8⟩ := by
  show analyze_movement mdScenario = (⟨1, 1, 1, 0.8⟩ : MovementMetrics)
  unfold analyze_movement
  dsimp only
  rw [velocities_scenario, accelerations_single, smoothness_single, energy_scenario,
    accuracy_scenario, form_scenario]

theorem timing_scenario : (analyze mdScenario).1 = ⟨0, 1, 100⟩ := rfl

theorem overall_scenario :
    calculate_overall_score (analyze mdScenario).1 (analyze mdScenario).2.1 = 97 := by
  rw [timing_scenario, movement_scenario]
  norm_num [calculate_overall_score, npClip]

/-- C2: on the two-frame scenario (timestamps 0.0 and 0.1, one keypoint
each at (0,0) then (1,0), no z, no confidence, no tempo) the engine
computes velocities `[10.0]`, accelerations `[0.0]`, smoothness 1.0,
accuracy 1.0, energy 1.0, form 0.8, the no-tempo timing defaults, and an
overall score of exactly 97.0. -/
theorem concrete_scenario_values :
    calculate_velocities mdScenario.frames = [10] ∧
    calculate_accelerations (calculate_velocities mdScenario.frames) = [0] ∧
    (analyze mdScenario).2.1 = ⟨1, 1, 1, 0.8⟩ ∧
    (analyze mdScenario).1 = ⟨0, 1, 100⟩ ∧
    calculate_overall_score (analyze mdScenario).1 (analyze mdScenario).2.1 = 97 :=
  ⟨velocities_scenario, accelerations_scenario, movement_scenario, timing_scenario,
    overall_scenario⟩

/-! ### The dt default -/

theorem calculate_velocities_getD (frames : List Frame) (i : ℕ) (h : i + 1 < frames.length) :
    (calculate_velocities frames).getD i 0 =
      frameVelocity (frames.getD i ⟨0, []⟩) (frames.getD (i + 1) ⟨0, []⟩) := by
  unfold calculate_velocities
  rw [if_neg (by omega)]
  have hz : i < (frames.zip frames.tail).length := by
    rw [List.length_zip, List.length_tail]
    omega
  have hm : i < ((frames.zip frames.tail).map fun p => frameVelocity p.1 p.2).length := by
    rw [List.length_map]
    exact hz
  rw [List.getD_eq_getElem _ _ hm, List.getElem_map, List.getElem_zip]
  dsimp only
  rw [List.getElem_tail, List.getD_eq_getElem frames _ (show i < frames.length by omega),
    List.getD_eq_getElem frames _ h]

theorem velDup : frameVelocity frame00 frameDup = 1000 / 33 := by
  unfold frameVelocity
  dsimp only
  rw [if_pos (by norm_num [frame00, frameDup])]
  have hd : frameDisplacement frame00 frameDup = 1 := by
    simp [frameDisplacement, pairDisplacement, frame00, frameDup]
  rw [hd]
  norm_num [pairCount, frame00, frameDup]

/-- C6 counterexample: with two frames at the same timestamp (so dt ≤ 0)
and an average displacement of 1, the computed velocity is `1000/33` (the
code divides by `0.033`), not the `30` that dividing by `1/30` would
give. -/
theorem dt_default_counterexample :
    (calculate_velocities [frame00, frameDup]).getD 0 0 = 1000 / 33 ∧
      (calculate_velocities [frame00, frameDup]).getD 0 0 ≠
        frameDisplacement frame00 frameDup / (1 / 30) := by
  have hv : (calculate_velocities [frame00, frameDup]).getD 0 0 = 1000 / 33 := by
    have hc : calculate_velocities [frame00, frameDup] = [1000 / 33] := by
      unfold calculate_velocities
      rw [if_neg (by norm_num)]
      simp [velDup]
    rw [hc]
    rfl
  have hd : frameDisplacement frame00 frameDup = 1 := by
    simp [frameDisplacement, pairDisplacement, frame00, frameDup]
  refine ⟨hv, ?_⟩
  rw [hv, hd]
  norm_num

/-- C6 (amended): for every pair of consecutive frames whose timestamp
difference is ≤ 0, the value `0.033` seconds (approximately, but not
exactly, 1/30) is substituted for dt before dividing the average keypoint
displacement by dt. -/
theorem dt_default_amended (frames : List Frame) (i : ℕ) (h : i + 1 < frames.length)
    (hdt : (frames.getD (i + 1) ⟨0, []⟩).timestamp - (frames.getD i ⟨0, []⟩).timestamp ≤ 0) :
    (calculate_velocities frames).getD i 0 =
      frameDisplacement (frames.getD i ⟨0, []⟩) (frames.getD (i + 1) ⟨0, []⟩) /
        (max (pairCount (frames.getD i ⟨0, []⟩) (frames.getD (i + 1) ⟨0, []⟩)) 1 : ℕ) /
        0.033 := by
  rw [calculate_velocities_getD frames i h]
  unfold frameVelocity
  dsimp only
  rw [if_pos hdt]

/-- Witness for `dt_default_amended` on the duplicate-timestamp pair. -/
theorem dt_default_amended_witness :
    (calculate_velocities [frame00, frameDup]).getD 0 0 =
      frameDisplacement ([frame00, frameDup].getD 0 ⟨0, []⟩)
          ([frame00, frameDup].getD 1 ⟨0, []⟩) /
        (max (pairCount ([frame00, frameDup].getD 0 ⟨0, []⟩)
          ([frame00, frameDup].getD 1 ⟨0, []⟩)) 1 : ℕ) / 0.033 := by
  refine dt_default_amended [frame00, frameDup] 0 (by norm_num) ?_
  show frameDup.timestamp - frame00.timestamp ≤ 0
  norm_num [frame00, frameDup]

/-! ### Single-frame input -/

/-- C10: for every MotionData with exactly one frame, the velocity list is
`[0.0]` and `analyze` yields `energy_score = 0`; moreover the velocity
list of any frame list is never empty, so the neutral 0.5 default of
`calculate_energy` is unreachable through `analyze`. -/
theorem single_frame_velocities_energy :
    (∀ md : MotionData, md.frames.length = 1 →
      calculate_velocities md.frames = [0] ∧ (analyze md).2.1.energy_score = 0) ∧
    ∀ frames : List Frame, calculate_velocities frames ≠ [] := by
  constructor
  · intro md h
    have hv : calculate_velocities md.frames = [0] := by
      unfold calculate_velocities
      rw [if_pos (by omega)]
    refine ⟨hv, ?_⟩
    show (analyze_movement md).energy_score = 0
    unfold analyze_movement
    dsimp only
    rw [hv]
    unfold calculate_energy
    rw [if_neg (by norm_num)]
    norm_num [npMean, npClip]
  · intro frames
    unfold calculate_velocities
    split_ifs with h
    · simp
    · have hl : 0 < ((frames.zip frames.tail).map fun p => frameVelocity p.1 p.2).length := by
        rw [List.length_map, List.length_zip, List.length_tail]
        omega
      exact List.length_pos.mp hl

/-- Witness for `single_frame_velocities_energy` on the single-frame
input. -/
theorem single_frame_velocities_energy_witness :
    calculate_velocities mdSingle.frames = [0] ∧ (analyze mdSingle).2.1.energy_score = 0 :=
  single_frame_velocities_energy.1 mdSingle rfl

end StepFlow

end
